import Mathlib

/-!
Verification of the GAT (generalization-across-time) plotting module
(`mne/viz/decoding.py`): a shallow embedding of `plot_gat_matrix` and
`plot_gat_slice` together with proofs about the slice-extraction
algorithm, the chance-level resolution, the error conditions and the
axis-bound defaulting.

Real-valued times and scores are embedded as rationals (`ℚ`).  Drawing
calls into matplotlib are modelled as an explicit event trace; a call
either returns its trace or stops at the first raised error.  Purely
presentational parameters (title, colors, axis labels, legend, `show`,
colorbar) are not modelled: no claim concerns them and they do not feed
back into any computation.
-/

namespace GatPlot

/-- `gat.train_times` in the source: the per-row training times
(`times_`) and the nominal spacing `step` between consecutive training
times. -/
structure TrainTimes where
  times_ : List ℚ
  step : ℚ

/-- The results object read by both plotting functions.  `scores_ = none`
models a `gat` object on which `hasattr(gat, 'scores_')` is false.
`scorer_name` is `gat.scorer_.__name__` (the source compares it with
`is` against interned string literals, which behaves as string equality
for function names).  `y_train_` holds the training labels. -/
structure Gat where
  scores_ : Option (List (List ℚ))
  train_times : TrainTimes
  test_times_ : List (List ℚ)
  scorer_name : String
  y_train_ : List ℤ

/-- The dynamic type of the `train_time` argument of `plot_gat_slice`:
a Python `str`, a `float`/`np.float64`/`np.float32`, or an `int`
(which the source's `type(train_time) in [float, np.float64, np.float32]`
test does not accept). -/
inductive Selector where
  | str (s : String)
  | float (x : ℚ)
  | int (n : ℤ)

/-- The dynamic type of the `chance` argument of `plot_gat_slice`:
a Python `bool` or a `float`. -/
inductive ChanceArg where
  | bool (b : Bool)
  | float (x : ℚ)

/-- The errors raised by the two functions:
`notScored` is `RuntimeError('Please score your data ...')`,
`noClassifier` is `ValueError('No classifier trained at ...')`,
`invalidSelector` is `ValueError("train_time must be 'diagonal' or a float.")`. -/
inductive SliceErr where
  | notScored
  | noClassifier
  | invalidSelector

/-- The value bound to the local variable `scores` in `plot_gat_slice`:
either the full 2-D grid `gat.scores_` (the branch for a grid whose test
rows all have one entry assigns the 2-D array itself) or a 1-D row. -/
inductive PlotData where
  | grid (g : List (List ℚ))
  | row (s : List ℚ)

/-- The 1-D sequence matplotlib draws for a `PlotData`: an `(n, 1)`
array passed to `ax.plot` is drawn as the single line holding its `n`
entries, i.e. the flattening of the grid (the grid case only arises
when every row has exactly one entry). -/
def PlotData.asSeq : PlotData → List ℚ
  | .grid g => g.flatten
  | .row s => s

/-- Observable matplotlib calls, in call order.  `chanceLine y ls lab`
is `ax.axhline(chance, color='k', linestyle=ls, label=lab)` with
`y = none` standing for `np.nan`; `chanceWarn` is the `warnings.warn`
call for an unrecognized scorer. -/
inductive Event where
  | subplots
  | imshow (g : List (List ℚ)) (extent : List ℚ) (vmin vmax : ℚ)
  | plotLine (xs ys : List ℚ) (label : String)
  | chanceWarn
  | chanceLine (y : Option ℚ) (linestyle label : String)

/-- `np.abs(ts - t).argmin()`: the first index of `ts` minimizing the
absolute distance to `t` (numpy's `argmin` returns the first occurrence
of the minimum; on an empty array numpy raises, a case no claim
reaches, and this embedding returns 0). -/
def nearestIdx (ts : List ℚ) (t : ℚ) : Nat :=
  (List.range ts.length).foldl
    (fun best k => if |ts.getD k 0 - t| < |ts.getD best 0 - t| then k else best) 0

/-- Line 152: `np.all(np.unique([len(t) for t in gat.test_times_['times_']]) == 1)`,
i.e. every test-time row has exactly one entry (`np.unique` does not
change whether all lengths equal 1; on zero rows `np.all` of an empty
array is true, as is `List.all` of `[]`). -/
def allTestLenOne (gat : Gat) : Bool :=
  (gat.test_times_.map List.length).all (fun l => l == 1)

/-- `train_time == 'diagonal'`: only a `str` equal to `"diagonal"`
compares equal (a Python float or int never equals a string). -/
def isDiagonalSel : Selector → Bool
  | .str s => s == "diagonal"
  | _ => false

/-- `type(train_time) in [float, np.float64, np.float32]`. -/
def isFloatTySel : Selector → Bool
  | .float _ => true
  | _ => false

/-- Line 163: `train_time - test_times[j] <= gat.train_times['step']`
with `j` the nearest index — the signed acceptance test of the
"diagonal" branch. -/
def acceptTest (step t : ℚ) (ts : List ℚ) : Bool :=
  decide (t - ts.getD (nearestIdx ts t) 0 ≤ step)

/-- The inner loop of lines 157-164 for one row `i` with training time
`t`: starting from the initialization `scores[i] = 0`, scan every
test-time row `ts`, and on each accepted test overwrite `scores[i]`
with `gat.scores_[i][j]` where `j = nearestIdx ts t`. -/
def diagRowVal (gat : Gat) (g : List (List ℚ)) (i : Nat) (t : ℚ) : ℚ :=
  gat.test_times_.foldl
    (fun acc ts =>
      if acceptTest gat.train_times.step t ts
      then (g.getD i []).getD (nearestIdx ts t) 0
      else acc)
    0

/-- Lines 157-164: `scores = np.zeros(len(gat.scores_))` followed by the
double loop over `enumerate(gat.train_times['times_'])`; entries with no
corresponding training time keep the zero initialization. -/
def diagScores (gat : Gat) (g : List (List ℚ)) : List ℚ :=
  (List.range g.length).map fun i =>
    match gat.train_times.times_[i]? with
    | some t => diagRowVal gat g i t
    | none => 0

/-- Lines 152-171 of `plot_gat_slice`: the four-way selection of the
local `scores` value.  `g` is the grid held by `gat.scores_` (the
caller has already checked it exists). -/
def extractSlice (gat : Gat) (g : List (List ℚ)) (sel : Selector) :
    Except SliceErr PlotData :=
  if allTestLenOne gat then Except.ok (PlotData.grid g)
  else if isDiagonalSel sel then Except.ok (PlotData.row (diagScores gat g))
  else match sel with
    | Selector.float x =>
        let idx := nearestIdx gat.train_times.times_ x
        if idx = 0 then Except.error SliceErr.noClassifier
        else Except.ok (PlotData.row (g.getD idx []))
    | _ => Except.error SliceErr.invalidSelector

/-- Lines 176-184: resolution of the chance constant from the scorer
name when `chance is True`.  Returns the constant (`none` models
`np.nan`) and whether the advisory warning was emitted. -/
def chanceFromScorer (gat : Gat) : Option ℚ × Bool :=
  if gat.scorer_name = "accuracy_score" then
    (some (1 / (gat.y_train_.dedup.length : ℚ)), false)
  else if gat.scorer_name = "roc_auc_score" then
    (some (1 / 2), false)
  else (none, true)

/-- `plot_gat_slice` (lines 144-204) with `ax=None`, modelled as the
trace of drawing calls plus the error the call stops at, if any.  The
`scores_` check precedes `plt.subplots`; extraction errors occur after
the figure exists; the chance block runs only when `chance is True`
(line 175), so a caller-supplied float `chance` never reaches the
`axhline` at line 185. -/
def plot_gat_slice (gat : Gat) (train_time : Selector) (chance : ChanceArg) :
    List Event × Option SliceErr :=
  match gat.scores_ with
  | none => ([], some SliceErr.notScored)
  | some g =>
    match extractSlice gat g train_time with
    | Except.error e => ([Event.subplots], some e)
    | Except.ok pd =>
      let plotEvs := [Event.subplots,
        Event.plotLine gat.train_times.times_ (PlotData.asSeq pd) "Classif. score"]
      let chanceEvs :=
        match chance with
        | ChanceArg.bool true =>
          let rc := chanceFromScorer gat
          (if rc.2 then [Event.chanceWarn] else [])
            ++ [Event.chanceLine rc.1 "--" "Chance level"]
        | _ => []
      (plotEvs ++ chanceEvs, none)

/-- `np.min(gat.scores_)` over the whole grid. -/
def gridMin (g : List (List ℚ)) : ℚ :=
  match g.flatten with
  | [] => 0
  | x :: xs => xs.foldl min x

/-- `np.max(gat.scores_)` over the whole grid. -/
def gridMax (g : List (List ℚ)) : ℚ :=
  match g.flatten with
  | [] => 0
  | x :: xs => xs.foldl max x

/-- Line 75: the default `tlim`,
`[tn_times[0][0], tn_times[-1][-1], tt_times[0], tt_times[-1]]` where
`tn_times` is `gat.test_times_['times_']` and `tt_times` is
`gat.train_times['times_']` (Python raises IndexError on empty lists, a
case no claim reaches; the embedding substitutes 0). -/
def defaultTlim (gat : Gat) : List ℚ :=
  [(gat.test_times_.headD []).headD 0,
   (gat.test_times_.getLastD []).getLastD 0,
   gat.train_times.times_.headD 0,
   gat.train_times.times_.getLastD 0]

/-- `plot_gat_matrix` (lines 58-94) with `ax=None`: the `scores_` check
precedes `plt.subplots`; `vmin`/`vmax` default to the grid minimum and
maximum and `tlim` to `defaultTlim`; the grid is then drawn via
`ax.imshow` with `extent=tlim`. -/
def plot_gat_matrix (gat : Gat) (vminArg vmaxArg : Option ℚ)
    (tlimArg : Option (List ℚ)) : List Event × Option SliceErr :=
  match gat.scores_ with
  | none => ([], some SliceErr.notScored)
  | some g =>
    let vmin := vminArg.getD (gridMin g)
    let vmax := vmaxArg.getD (gridMax g)
    let tlim := tlimArg.getD (defaultTlim gat)
    ([Event.subplots, Event.imshow g tlim vmin vmax], none)

/-! ## Concrete sources used for witnesses and counterexamples -/

/-- A ragged source: one test-time row of length 2, so the
`allTestLenOne` branch is not taken.  Both test times (10 and 11) are
far later than both training times (0 and 1); `step = 1`. -/
def gatRagged : Gat :=
  { scores_ := some [[5, 6], [7, 8]]
    train_times := { times_ := [0, 1], step := 1 }
    test_times_ := [[10, 11]]
    scorer_name := "accuracy_score"
    y_train_ := [0, 1, 2, 3] }

/-- A source whose test-time rows all have exactly one entry. -/
def gatLenOne : Gat :=
  { scores_ := some [[3], [4]]
    train_times := { times_ := [0, 1], step := 1 }
    test_times_ := [[0], [1]]
    scorer_name := "accuracy_score"
    y_train_ := [0, 1, 2, 3] }

/-- A ragged source whose test times all lie much earlier than the
training time, so the signed acceptance test rejects every row. -/
def gatFar : Gat :=
  { scores_ := some [[9, 8]]
    train_times := { times_ := [0], step := 1 }
    test_times_ := [[-10, -11]]
    scorer_name := "roc_auc_score"
    y_train_ := [0, 1] }

/-- A source on which `scores_` is unset. -/
def gatNoScores : Gat :=
  { scores_ := none
    train_times := { times_ := [0], step := 1 }
    test_times_ := [[0]]
    scorer_name := "accuracy_score"
    y_train_ := [0] }

/-! ## Helper lemmas -/

/-- A fold that overwrites its accumulator at every element satisfying
`p` ends at the value of the last such element (the first one of the
reversed list), and at `acc` when none satisfies `p`. -/
lemma foldl_if_last_find (p : List ℚ → Bool) (v : List ℚ → ℚ) :
    ∀ (rows : List (List ℚ)) (acc : ℚ),
      rows.foldl (fun a ts => if p ts then v ts else a) acc =
        (rows.reverse.find? p).elim acc v := by
  intro rows
  induction rows using List.reverseRecOn with
  | nil => intro acc; rfl
  | append_singleton l a ih =>
    intro acc
    rw [List.foldl_append, List.reverse_append, List.foldl_cons, List.foldl_nil]
    simp only [List.reverse_cons, List.reverse_nil, List.nil_append,
      List.singleton_append, List.find?_cons]
    cases hpa : p a with
    | false => simpa using ih acc
    | true => simp

/-- `diagRowVal` through the characterization of `foldl_if_last_find`. -/
lemma diagRowVal_elim (gat : Gat) (g : List (List ℚ)) (i : Nat) (t : ℚ) :
    diagRowVal gat g i t =
      (gat.test_times_.reverse.find? (acceptTest gat.train_times.step t)).elim 0
        (fun ts => (g.getD i []).getD (nearestIdx ts t) 0) := by
  unfold diagRowVal
  exact foldl_if_last_find _ _ _ 0

/-! ## Claims -/

/-- **C10**: in the ragged "diagonal" extraction, for each row `i` the
inner loop scans every row's test-time sequence and overwrites
`scores[i]` on each accepted match, so the final value of `scores[i]`
is `gat.scores_[i][j]` where `j` is the nearest-time index computed
from the last test-time row (in row order) that passes the tolerance
check — not necessarily from row `i`'s own test-time sequence — and 0
when no row passes. -/
theorem diag_value_from_last_accepted_row (gat : Gat) (g : List (List ℚ))
    (i : Nat) (t : ℚ) (hi : i < g.length)
    (ht : gat.train_times.times_[i]? = some t) :
    (diagScores gat g).getD i 0 =
      (gat.test_times_.reverse.find? (acceptTest gat.train_times.step t)).elim 0
        (fun ts => (g.getD i []).getD (nearestIdx ts t) 0) := by
  have h1 : (diagScores gat g).getD i 0 = diagRowVal gat g i t := by
    unfold diagScores
    rw [List.getD_eq_getElem?_getD, List.getElem?_map, List.getElem?_range hi]
    simp [ht]
  rw [h1, diagRowVal_elim]

/-- Witness for C10 on `gatRagged`, row 0, training time 0. -/
theorem diag_value_from_last_accepted_row_witness :
    0 < ([[5, 6], [7, 8]] : List (List ℚ)).length ∧
    gatRagged.train_times.times_[0]? = some 0 ∧
    (diagScores gatRagged [[5, 6], [7, 8]]).getD 0 0 =
      (gatRagged.test_times_.reverse.find?
          (acceptTest gatRagged.train_times.step 0)).elim 0
        (fun ts => (([[5, 6], [7, 8]] : List (List ℚ)).getD 0 []).getD
          (nearestIdx ts 0) 0) :=
  ⟨by norm_num, by rfl,
    diag_value_from_last_accepted_row gatRagged [[5, 6], [7, 8]] 0 0
      (by norm_num) (by rfl)⟩

/-- **C1** (amended): in the "diagonal" extraction the acceptance test is
the signed condition `t_i - testTime_j ≤ step`: a score is taken only
from a test-time row whose nearest time satisfies it (the nearest test
time may lie arbitrarily *later* than the train time), and a row for
which every test-time row's nearest time is earlier than `t_i` by more
than `step` keeps its initialized default value 0. -/
theorem diag_signed_tolerance (gat : Gat) (g : List (List ℚ)) (i : Nat) (t : ℚ) :
    ((∀ ts ∈ gat.test_times_,
        ¬ (t - ts.getD (nearestIdx ts t) 0 ≤ gat.train_times.step)) →
      diagRowVal gat g i t = 0) ∧
    (diagRowVal gat g i t ≠ 0 →
      ∃ ts ∈ gat.test_times_,
        t - ts.getD (nearestIdx ts t) 0 ≤ gat.train_times.step ∧
        diagRowVal gat g i t = (g.getD i []).getD (nearestIdx ts t) 0) := by
  constructor
  · intro hall
    rw [diagRowVal_elim]
    have hnone : gat.test_times_.reverse.find?
        (acceptTest gat.train_times.step t) = none := by
      rw [List.find?_eq_none]
      intro ts hts
      have h := hall ts (List.mem_reverse.mp hts)
      simp only [acceptTest, decide_eq_true_eq]
      exact h
    rw [hnone]
    rfl
  · intro hne
    rw [diagRowVal_elim] at hne ⊢
    cases hfind : gat.test_times_.reverse.find?
        (acceptTest gat.train_times.step t) with
    | none => rw [hfind] at hne; simp at hne
    | some ts =>
      refine ⟨ts, List.mem_reverse.mp (List.mem_of_find?_eq_some hfind), ?_, ?_⟩
      · have h := List.find?_some hfind
        simpa [acceptTest] using h
      · rfl

/-- Witness for C1 (amended) on `gatFar`: every test time is more than
one step earlier than the training time 0, so the row keeps 0. -/
theorem diag_signed_tolerance_witness :
    (∀ ts ∈ gatFar.test_times_,
      ¬ ((0 : ℚ) - ts.getD (nearestIdx ts 0) 0 ≤ gatFar.train_times.step)) ∧
    diagRowVal gatFar [[9, 8]] 0 0 = 0 := by
  have h : ∀ ts ∈ gatFar.test_times_,
      ¬ ((0 : ℚ) - ts.getD (nearestIdx ts 0) 0 ≤ gatFar.train_times.step) := by
    intro ts hts
    simp only [gatFar, List.mem_cons, List.not_mem_nil, or_false] at hts
    subst hts
    norm_num [gatFar, nearestIdx, List.range_succ, List.getD, abs_eq_max_neg, max_def]
  exact ⟨h, (diag_signed_tolerance gatFar [[9, 8]] 0 0).1 h⟩

/-- Counterexample to C1 as stated: on `gatRagged` with selector
"diagonal", every test time lies more than `step = 1` away from the
row-0 training time 0, yet the extracted sequence starts with
`scores[0][0] = 5`, not the initialized default 0 — the code's signed
check accepts nearest test times arbitrarily later than the train
time. -/
theorem diag_tolerance_counterexample :
    extractSlice gatRagged [[5, 6], [7, 8]] (Selector.str "diagonal") =
      Except.ok (PlotData.row [5, 7]) ∧
    (∀ ts ∈ gatRagged.test_times_, ∀ x ∈ ts,
      gatRagged.train_times.step < |x - 0|) := by
  constructor
  · norm_num [extractSlice, allTestLenOne, isDiagonalSel, gatRagged, diagScores,
      diagRowVal, acceptTest, nearestIdx, List.range_succ, List.getD,
      abs_eq_max_neg, max_def]
  · intro ts hts x hx
    simp only [gatRagged, List.mem_cons, List.not_mem_nil, or_false] at hts
    subst hts
    simp only [List.mem_cons, List.not_mem_nil, or_false] at hx
    rcases hx with h | h <;> subst h <;> norm_num [gatRagged]

/-- **C5**: when every row of `testTimes` has exactly one entry, the
"diagonal" call uses `scores` directly — the assigned value is the
grid itself, whose plotted 1-D sequence is the flattened grid — and no
nearest-time search runs. -/
theorem diagonal_single_column_uses_scores (gat : Gat) (g : List (List ℚ))
    (h : allTestLenOne gat = true) :
    extractSlice gat g (Selector.str "diagonal") = Except.ok (PlotData.grid g) ∧
    PlotData.asSeq (PlotData.grid g) = g.flatten := by
  constructor
  · simp [extractSlice, h]
  · rfl

/-- Witness for C5 on `gatLenOne`. -/
theorem diagonal_single_column_uses_scores_witness :
    allTestLenOne gatLenOne = true ∧
    extractSlice gatLenOne [[3], [4]] (Selector.str "diagonal") =
      Except.ok (PlotData.grid [[3], [4]]) ∧
    PlotData.asSeq (PlotData.grid ([[3], [4]] : List (List ℚ))) = [3, 4] := by
  have h : allTestLenOne gatLenOne = true := by rfl
  have hth := diagonal_single_column_uses_scores gatLenOne [[3], [4]] h
  exact ⟨h, hth.1, by rfl⟩

/-- **C4** (amended): provided some test-time row does not have exactly
one entry (on a single-column grid the first branch returns the full
grid without inspecting the selector), a float selector whose nearest
training-time index is 0 raises `NoClassifierAtTimeError`, and any
nonzero resolved index yields exactly the full row `scores[idx]`. -/
theorem float_selector_semantics (gat : Gat) (g : List (List ℚ)) (x : ℚ)
    (hragged : allTestLenOne gat = false) :
    (nearestIdx gat.train_times.times_ x = 0 →
      extractSlice gat g (Selector.float x) =
        Except.error SliceErr.noClassifier) ∧
    (nearestIdx gat.train_times.times_ x ≠ 0 →
      extractSlice gat g (Selector.float x) =
        Except.ok (PlotData.row
          (g.getD (nearestIdx gat.train_times.times_ x) []))) := by
  constructor
  · intro h0
    simp [extractSlice, hragged, isDiagonalSel, h0]
  · intro h0
    simp [extractSlice, hragged, isDiagonalSel, h0]

/-- Witness for C4 (amended) on `gatRagged` with selector `0.9`:
the nearest training time is at index 1 and row 1 is returned whole. -/
theorem float_selector_semantics_witness :
    allTestLenOne gatRagged = false ∧
    nearestIdx gatRagged.train_times.times_ (9 / 10) = 1 ∧
    extractSlice gatRagged [[5, 6], [7, 8]] (Selector.float (9 / 10)) =
      Except.ok (PlotData.row [7, 8]) := by
  have hragged : allTestLenOne gatRagged = false := by rfl
  have hidx : nearestIdx gatRagged.train_times.times_ (9 / 10) = 1 := by
    norm_num [gatRagged, nearestIdx, List.range_succ, List.getD,
      abs_eq_max_neg, max_def]
  have h := (float_selector_semantics gatRagged [[5, 6], [7, 8]] (9 / 10)
    hragged).2 (by rw [hidx]; norm_num)
  refine ⟨hragged, hidx, ?_⟩
  rw [h, hidx]
  rfl

/-- Counterexample to C4 as stated: on `gatLenOne` (every test row has
one entry) the nearest training-time index to the float selector `-5`
is 0, yet the call succeeds and returns the full grid, because the
single-column branch runs before the numeric-selector branch. -/
theorem float_selector_counterexample :
    nearestIdx gatLenOne.train_times.times_ (-5) = 0 ∧
    extractSlice gatLenOne [[3], [4]] (Selector.float (-5)) =
      Except.ok (PlotData.grid [[3], [4]]) ∧
    (plot_gat_slice gatLenOne (Selector.float (-5)) (ChanceArg.bool false)).2 =
      none := by
  refine ⟨?_, ?_, ?_⟩
  · norm_num [gatLenOne, nearestIdx, List.range_succ, List.getD,
      abs_eq_max_neg, max_def]
  · simp [extractSlice, allTestLenOne, gatLenOne]
  · simp [plot_gat_slice, gatLenOne, extractSlice, allTestLenOne]

/-- `extractSlice` yields `InvalidSelectorError` exactly on a
non-single-column grid with a selector that is neither the string
"diagonal" nor float-typed. -/
lemma extractSlice_invalid_iff (gat : Gat) (g : List (List ℚ)) (sel : Selector) :
    extractSlice gat g sel = Except.error SliceErr.invalidSelector ↔
      (allTestLenOne gat = false ∧ isDiagonalSel sel = false ∧
        isFloatTySel sel = false) := by
  unfold extractSlice
  by_cases h1 : allTestLenOne gat = true
  · simp [h1]
  · rw [Bool.not_eq_true] at h1
    by_cases h2 : isDiagonalSel sel = true
    · simp [h1, h2]
    · rw [Bool.not_eq_true] at h2
      cases sel with
      | str s => simp [h1, h2, isFloatTySel]
      | float x =>
          simp only [h1, h2, Bool.false_eq_true, if_false, isFloatTySel]
          split <;> simp
      | int n => simp [h1, h2, isFloatTySel]

/-- **C6** (amended): with scores present, `plot_gat_slice` raises
`InvalidSelectorError` exactly when the test grid is not single-column
(on a single-column grid the selector is never inspected) and the
selector is neither the string "diagonal" nor float-typed; no other
condition raises it. -/
theorem invalid_selector_iff (gat : Gat) (g : List (List ℚ)) (sel : Selector)
    (ch : ChanceArg) (hs : gat.scores_ = some g) :
    (plot_gat_slice gat sel ch).2 = some SliceErr.invalidSelector ↔
      (allTestLenOne gat = false ∧ isDiagonalSel sel = false ∧
        isFloatTySel sel = false) := by
  rw [← extractSlice_invalid_iff gat g sel]
  cases hx : extractSlice gat g sel with
  | error e => simp [plot_gat_slice, hs, hx]
  | ok pd => simp [plot_gat_slice, hs, hx]

/-- Witness for C6 (amended): an unsupported string selector on the
ragged source raises `InvalidSelectorError`. -/
theorem invalid_selector_iff_witness :
    gatRagged.scores_ = some [[5, 6], [7, 8]] ∧
    (plot_gat_slice gatRagged (Selector.str "unsupported-string")
        (ChanceArg.bool false)).2 = some SliceErr.invalidSelector := by
  refine ⟨by rfl, ?_⟩
  exact (invalid_selector_iff gatRagged [[5, 6], [7, 8]]
    (Selector.str "unsupported-string") (ChanceArg.bool false) (by rfl)).2
    ⟨by rfl, by rfl, by rfl⟩

/-- Counterexample to C6 as stated: on the single-column source
`gatLenOne` an unsupported string selector raises nothing — the first
branch returns the grid before the selector is inspected. -/
theorem invalid_selector_counterexample :
    (plot_gat_slice gatLenOne (Selector.str "unsupported-string")
        (ChanceArg.bool false)).2 = none := by
  simp [plot_gat_slice, gatLenOne, extractSlice, allTestLenOne]

/-- **C9**: an `int` selector — even one whose value matches a training
time exactly — is rejected with `InvalidSelectorError` whenever the
numeric branch is reached, because the type test accepts only `float`,
`np.float64` and `np.float32`. -/
theorem int_selector_rejected (gat : Gat) (g : List (List ℚ)) (n : ℤ)
    (ch : ChanceArg) (hs : gat.scores_ = some g)
    (hragged : allTestLenOne gat = false) :
    (plot_gat_slice gat (Selector.int n) ch).2 =
      some SliceErr.invalidSelector := by
  have hx : extractSlice gat g (Selector.int n) =
      Except.error SliceErr.invalidSelector := by
    simp [extractSlice, hragged, isDiagonalSel]
  simp [plot_gat_slice, hs, hx]

/-- Witness for C9 on `gatRagged` with the int selector 1, whose value
equals the training time at index 1 exactly. -/
theorem int_selector_rejected_witness :
    ((1 : ℤ) : ℚ) ∈ gatRagged.train_times.times_ ∧
    gatRagged.scores_ = some [[5, 6], [7, 8]] ∧
    allTestLenOne gatRagged = false ∧
    (plot_gat_slice gatRagged (Selector.int 1) (ChanceArg.bool true)).2 =
      some SliceErr.invalidSelector := by
  refine ⟨?_, by rfl, by rfl, int_selector_rejected gatRagged [[5, 6], [7, 8]] 1
    (ChanceArg.bool true) (by rfl) (by rfl)⟩
  norm_num [gatRagged]

/-- **C7**: with `scores_` unset, both renderers raise `NotScoredError`
with an empty drawing trace — no drawing call, including creation of
the drawing surface, has happened. -/
theorem not_scored_before_any_drawing (gat : Gat) (sel : Selector)
    (ch : ChanceArg) (vminArg vmaxArg : Option ℚ) (tlimArg : Option (List ℚ))
    (h : gat.scores_ = none) :
    plot_gat_slice gat sel ch = ([], some SliceErr.notScored) ∧
    plot_gat_matrix gat vminArg vmaxArg tlimArg =
      ([], some SliceErr.notScored) := by
  constructor
  · simp [plot_gat_slice, h]
  · simp [plot_gat_matrix, h]

/-- Witness for C7 on `gatNoScores`. -/
theorem not_scored_before_any_drawing_witness :
    gatNoScores.scores_ = none ∧
    plot_gat_slice gatNoScores (Selector.str "diagonal") (ChanceArg.bool true) =
      ([], some SliceErr.notScored) ∧
    plot_gat_matrix gatNoScores none none none =
      ([], some SliceErr.notScored) := by
  have h := not_scored_before_any_drawing gatNoScores (Selector.str "diagonal")
    (ChanceArg.bool true) none none none (by rfl)
  exact ⟨by rfl, h.1, h.2⟩

/-- **C8**: when `tlim` is not supplied, the four axis bounds default to
`[testTimes[0][0], testTimes[-1][-1], trainTimes[0], trainTimes[-1]]`,
in that order. -/
theorem matrix_default_time_bounds (gat : Gat) (g : List (List ℚ))
    (vminArg vmaxArg : Option ℚ) (hs : gat.scores_ = some g)
    (h1 : gat.test_times_ ≠ []) (h2 : gat.train_times.times_ ≠ []) :
    plot_gat_matrix gat vminArg vmaxArg none =
      ([Event.subplots,
        Event.imshow g
          [(gat.test_times_.headD []).headD 0,
           (gat.test_times_.getLastD []).getLastD 0,
           gat.train_times.times_.headD 0,
           gat.train_times.times_.getLastD 0]
          (vminArg.getD (gridMin g)) (vmaxArg.getD (gridMax g))], none) := by
  simp [plot_gat_matrix, hs, defaultTlim]

/-- Witness for C8 on `gatRagged`: bounds default to
`[10, 11, 0, 1]` and the color limits to the grid min 5 and max 8. -/
theorem matrix_default_time_bounds_witness :
    gatRagged.scores_ = some [[5, 6], [7, 8]] ∧
    gatRagged.test_times_ ≠ [] ∧
    gatRagged.train_times.times_ ≠ [] ∧
    plot_gat_matrix gatRagged none none none =
      ([Event.subplots, Event.imshow [[5, 6], [7, 8]] [10, 11, 0, 1] 5 8],
        none) := by
  refine ⟨by rfl, by simp [gatRagged], by simp [gatRagged], ?_⟩
  have h := matrix_default_time_bounds gatRagged [[5, 6], [7, 8]] none none
    (by rfl) (by simp [gatRagged]) (by simp [gatRagged])
  rw [h]
  norm_num [gatRagged, gridMin, gridMax, List.getD, min_def, max_def]

/-- **C2** fails on the code: the chance `axhline` (line 185) sits inside
the `if chance is True:` block, so a caller-supplied float `chance`
draws no chance line at all, although the docstring advertises
`chance : bool | float`.  Evaluated at the failing input
`chance = 0.3` on `gatLenOne`, the full trace holds no `chanceLine`
event. -/
theorem float_chance_draws_no_line :
    plot_gat_slice gatLenOne (Selector.str "diagonal")
        (ChanceArg.float (3 / 10)) =
      ([Event.subplots, Event.plotLine [0, 1] [3, 4] "Classif. score"],
        none) := by
  simp [plot_gat_slice, gatLenOne, extractSlice, allTestLenOne, PlotData.asSeq]

/-- **C3**: with `chance=True`, the chance constant resolves to
`1/numberOfUniqueLabels` for the accuracy scorer and to `0.5` for the
AUC scorer, each drawn as the dashed "Chance level" line; any other
scorer emits the advisory warning and passes the NaN placeholder (no
numeric chance value) to the line call, and the call still completes. -/
theorem chance_level_resolution (gat : Gat) (g : List (List ℚ)) (sel : Selector)
    (pd : PlotData) (hs : gat.scores_ = some g)
    (hx : extractSlice gat g sel = Except.ok pd) :
    (plot_gat_slice gat sel (ChanceArg.bool true)).2 = none ∧
    (gat.scorer_name = "accuracy_score" →
      (plot_gat_slice gat sel (ChanceArg.bool true)).1 =
        [Event.subplots,
         Event.plotLine gat.train_times.times_ (PlotData.asSeq pd)
           "Classif. score",
         Event.chanceLine (some (1 / (gat.y_train_.dedup.length : ℚ)))
           "--" "Chance level"]) ∧
    (gat.scorer_name = "roc_auc_score" →
      (plot_gat_slice gat sel (ChanceArg.bool true)).1 =
        [Event.subplots,
         Event.plotLine gat.train_times.times_ (PlotData.asSeq pd)
           "Classif. score",
         Event.chanceLine (some (1 / 2)) "--" "Chance level"]) ∧
    (gat.scorer_name ≠ "accuracy_score" → gat.scorer_name ≠ "roc_auc_score" →
      (plot_gat_slice gat sel (ChanceArg.bool true)).1 =
        [Event.subplots,
         Event.plotLine gat.train_times.times_ (PlotData.asSeq pd)
           "Classif. score",
         Event.chanceWarn,
         Event.chanceLine none "--" "Chance level"]) := by
  refine ⟨?_, ?_, ?_, ?_⟩
  · simp [plot_gat_slice, hs, hx]
  · intro h
    simp [plot_gat_slice, hs, hx, chanceFromScorer, h]
  · intro h
    simp [plot_gat_slice, hs, hx, chanceFromScorer, h]
  · intro h1 h2
    simp [plot_gat_slice, hs, hx, chanceFromScorer, h1, h2]

/-- Witness for C3 on `gatLenOne` (accuracy scorer, 4 unique training
labels): the chance line is drawn at `1/4 = 0.25`. -/
theorem chance_level_resolution_witness :
    gatLenOne.scores_ = some [[3], [4]] ∧
    extractSlice gatLenOne [[3], [4]] (Selector.str "diagonal") =
      Except.ok (PlotData.grid [[3], [4]]) ∧
    gatLenOne.scorer_name = "accuracy_score" ∧
    (plot_gat_slice gatLenOne (Selector.str "diagonal")
        (ChanceArg.bool true)).1 =
      [Event.subplots,
       Event.plotLine [0, 1] [3, 4] "Classif. score",
       Event.chanceLine (some (1 / 4)) "--" "Chance level"] := by
  have hx : extractSlice gatLenOne [[3], [4]] (Selector.str "diagonal") =
      Except.ok (PlotData.grid [[3], [4]]) := by
    simp [extractSlice, allTestLenOne, gatLenOne]
  have h := (chance_level_resolution gatLenOne [[3], [4]]
    (Selector.str "diagonal") (PlotData.grid [[3], [4]]) (by rfl) hx).2.1 (by rfl)
  refine ⟨by rfl, hx, by rfl, ?_⟩
  rw [h]
  have hd : (([0, 1, 2, 3] : List ℤ).dedup).length = 4 := by decide
  norm_num [gatLenOne, PlotData.asSeq, hd]

end GatPlot
